import Mathlib

/-!
Verification of the City-planner repository's reconciliation logic.

The repository has two React components. The file `src/unnamed/part_000`
(an earlier `App.jsx`) implements viewport-synchronized feature loading
(`fetchFeaturesForView`), a draw-to-rendered mirror (`syncPreview`) and a
whole-collection save (`saveToBackend`). The file `src/src/App.jsx`
implements the scenario-based planner UI: export, import, mock analysis,
scenario management, and draw-event handlers that only update the status
message.

Shallow embedding conventions:
- A GeoJSON feature is a record with an optional identifier (none models a
  JavaScript `undefined` or `null` id) and an opaque payload standing for
  its geometry and property bag.
- A fetched/parsed JSON body is a record whose `features` field is
  optional: `none` models a body that lacks a `features` array.
- `Date.now()` and `Math.random()` are modelled by an oracle
  `gen : Nat -> Nat x Nat` consumed once per feature that lacks an id, in
  order; `gen k` is the (timestamp, random-suffix) pair drawn at the k-th
  such call.
- The external drawing widget's state is the list of features it holds;
  `draw.getAll()` reads it, `draw.deleteAll()` clears it, and the
  delete-all-then-add-each loop of `fetchFeaturesForView` is modelled by
  replacing the list with the list of added features (the widget itself is
  an out-of-scope collaborator; `draw.add` is modelled as an append that
  succeeds).
- Network responses are passed in explicitly: a transport error or an HTTP
  status with a body. `res.ok` is status in [200, 300).
- Only the final value of the React `status` state at the end of a handler
  is modelled; transient values such as "Loading features for viewport..."
  are overwritten before the handler returns.
-/

/-- A GeoJSON feature: optional id (none = undefined/null in JS) plus an
opaque payload standing for geometry and properties. -/
structure Feature where
  id : Option String
  payload : String
deriving DecidableEq, Repr

/-- A JSON body as consumed by `fetchFeaturesForView`: the `features` field
may be absent (`none`), which matters because line 129 of part_000 reads
`fc.features.length` unguarded. -/
structure Body where
  features : Option (List Feature)
deriving DecidableEq, Repr

/-- The view state of the part_000 component: the rendered "features"
source's data, the drawing widget's feature list, and the status line. -/
structure ViewState where
  rendered : Body
  drawFeatures : List Feature
  status : String
deriving DecidableEq, Repr

/-- Result of `fetch` for the features request: a transport error, or an
HTTP response with a status code and a parsed JSON body. -/
inductive FetchResult where
  | transportError : FetchResult
  | http : Nat → Body → FetchResult
deriving DecidableEq, Repr

/-- Result of `fetch` for the save request (its body is never read). -/
inductive SaveResult where
  | transportError : SaveResult
  | http : Nat → SaveResult
deriving DecidableEq, Repr

/-- The `res.ok` predicate of the Fetch API: status in [200, 300). -/
def isOk (st : Nat) : Bool := 200 ≤ st && st < 300

/-- The synthesized identifier of part_000 line 124:
`'f_' + Date.now() + '_' + Math.floor(Math.random()*10000)`. -/
def synthId (t r : Nat) : String :=
  "f_" ++ toString t ++ "_" ++ toString r

/-- The id-assignment loop of part_000 lines 123-126: walk the response
features in order; a feature whose id is undefined/null receives
`synthId` of the next oracle draw (draw counter `k`); a feature that
already has an id is kept unchanged. -/
def assignIds (gen : Nat → Nat × Nat) : List Feature → Nat → List Feature
  | [], _ => []
  | f :: fs, k =>
    match f.id with
    | some _ => f :: assignIds gen fs k
    | none =>
      { f with id := some (synthId (gen k).1 (gen k).2) } :: assignIds gen fs (k + 1)

/-- The identifiers synthesized by `assignIds`, in draw order (the ids of
exactly the features that lacked one). -/
def synthesizedIds (gen : Nat → Nat × Nat) : List Feature → Nat → List String
  | [], _ => []
  | f :: fs, k =>
    match f.id with
    | some _ => synthesizedIds gen fs k
    | none => synthId (gen k).1 (gen k).2 :: synthesizedIds gen fs (k + 1)

/-- The failure status set by the catch block of `fetchFeaturesForView`. -/
def fetchFailMsg : String := "Failed to load viewport features"

/-- Embeds `fetchFeaturesForView` (part_000 lines 107-134) as a state
transition given the network outcome and the timestamp/random oracle.
Control flow of the source: on transport error or `!res.ok` the function
throws before any mutation, so only the status changes; on an ok status it
first sets the rendered source's data to the body, then deletes every
feature in the drawing widget, then (only if `fc.features` is truthy and
non-empty) adds each response feature with ids assigned, then reads
`fc.features.length` for the success status — which throws when the body
has no `features` array, landing in the catch block after the mutations. -/
def fetchFeaturesForView (gen : Nat → Nat × Nat) (resp : FetchResult)
    (s : ViewState) : ViewState :=
  match resp with
  | .transportError => { s with status := fetchFailMsg }
  | .http st body =>
    if isOk st then
      match body.features with
      | some fs =>
        { rendered := body
          drawFeatures := if fs.length ≠ 0 then assignIds gen fs 0 else []
          status := "Loaded " ++ toString fs.length ++ " features" }
      | none =>
        { rendered := body, drawFeatures := [], status := fetchFailMsg }
    else
      { s with status := fetchFailMsg }

/-- Embeds `syncPreview` (part_000 lines 90-94): copy the drawing widget's
entire current feature set into the rendered "features" source. The
`|| empty-collection` fallback never fires because `draw.getAll()` always
returns a collection; the source exists after map load. Synchronous, no
network effect. -/
def syncPreview (s : ViewState) : ViewState :=
  { s with rendered := { features := some s.drawFeatures } }

/-- Embeds `saveToBackend` (part_000 lines 137-158). Returns the POST
payload that was sent, whether the viewport refetch ran, and the final
state. The payload is always the drawing widget's entire current set
(`draw.getAll()`; the `||` fallback never fires), even when empty. On a
non-ok status or transport error the catch block sets "Save failed"; on
success the status becomes "Saved to backend" and `fetchFeaturesForView`
is re-run for the current viewport. -/
def saveToBackend (gen : Nat → Nat × Nat) (saveResp : SaveResult)
    (fetchResp : FetchResult) (s : ViewState) :
    List Feature × Bool × ViewState :=
  let payload := s.drawFeatures
  match saveResp with
  | .transportError => (payload, false, { s with status := "Save failed" })
  | .http st =>
    if isOk st then
      (payload, true,
        fetchFeaturesForView gen fetchResp { s with status := "Saved to backend" })
    else
      (payload, false, { s with status := "Save failed" })

/-- One recommendation of the mock analysis payload of `src/src/App.jsx`
(lines 46-50): a kind tag, text, priority and icon. -/
structure Recommendation where
  kind : String
  text : String
  priority : String
  icon : String
deriving DecidableEq, Repr

/-- The analysis payload held in `analysisData`: four category scores and
the recommendation list (`src/src/App.jsx` lines 39-51). -/
structure AnalysisResult where
  environmental : Nat
  wellbeing : Nat
  economic : Nat
  hazard : Nat
  recommendations : List Recommendation
deriving DecidableEq, Repr

/-- The hard-coded `mockAnalysisData` object of `src/src/App.jsx`. -/
def mockAnalysisData : AnalysisResult :=
  { environmental := 72
    wellbeing := 68
    economic := 61
    hazard := 25
    recommendations :=
      [ { kind := "success", text := "Good green space distribution",
          priority := "low", icon := "🌿" },
        { kind := "warning", text := "Consider flood drainage in northern zone",
          priority := "medium", icon := "💧" },
        { kind := "error", text := "High heat island effect in commercial area",
          priority := "high", icon := "🌡️" } ] }

/-- The state of the `src/src/App.jsx` component that the handlers touch:
the drawing widget's feature list, the data of a rendered "features"
source if one existed (this component's map style declares only the `osm`
raster source and never creates a "features" GeoJSON source, so the field
is `none` and no handler ever writes it), the status line, the scenario
list and selection, and the held analysis result. -/
structure AppState where
  drawFeatures : List Feature
  featuresSourceData : Option Body
  status : String
  scenarios : List String
  currentScenario : String
  analysisData : Option AnalysisResult
deriving DecidableEq, Repr

/-- Embeds the `draw.create` handler of `src/src/App.jsx` lines 124-127:
it reads `draw.getAll()` and sets the status to a count message; it copies
nothing anywhere. -/
def drawCreateHandler (s : AppState) : AppState :=
  { s with status := "Drawn " ++ toString s.drawFeatures.length ++ " objects" }

/-- Embeds the `draw.update` handler of `src/src/App.jsx` lines 129-132. -/
def drawUpdateHandler (s : AppState) : AppState :=
  { s with status := "Updated " ++ toString s.drawFeatures.length ++ " objects" }

/-- Embeds the `draw.delete` handler of `src/src/App.jsx` lines 134-137. -/
def drawDeleteHandler (s : AppState) : AppState :=
  { s with status := toString s.drawFeatures.length ++ " objects remaining" }

/-- Outcome of reading and JSON-parsing an imported file: `parseError`
models a `JSON.parse` throw; `parsed o` models a successfully parsed value
whose `features` field is an array (`some`) or absent/falsy (`none`).
Arrays are always truthy in JavaScript, including the empty array, so
`some []` takes the import branch. -/
inductive ParseResult where
  | parseError : ParseResult
  | parsed : Option (List Feature) → ParseResult
deriving DecidableEq, Repr

/-- Embeds `handleImport` of `src/src/App.jsx` lines 206-228, given the
parse outcome for the selected file. If `JSON.parse` throws, the catch
block sets the invalid-format status and nothing else happens. If it
succeeds and `geoJson.features` is truthy, the widget is cleared
(`deleteAll`) and every feature of the array added, then the imported
count is reported. If it succeeds but `geoJson.features` is absent or
falsy, the guard `if (draw && geoJson.features)` fails and the handler
returns with no state change and no message at all. -/
def handleImport (p : ParseResult) (s : AppState) : AppState :=
  match p with
  | .parseError => { s with status := "Error: Invalid GeoJSON file" }
  | .parsed none => s
  | .parsed (some fs) =>
    { s with drawFeatures := fs
             status := "Imported " ++ toString fs.length ++ " features" }

/-- Embeds `handleExport` of `src/src/App.jsx` lines 177-204. Returns the
new state and the downloadable artifact, modelled as the pair of the
download file name and the serialized feature list (`none` when no
download was produced). With an empty set the handler sets the
"No features to export" status and returns before building any blob; with
a non-empty set it serializes the full set and reports the count. -/
def handleExport (s : AppState) : AppState × Option (String × List Feature) :=
  if s.drawFeatures.length = 0 then
    ({ s with status := "No features to export" }, none)
  else
    ({ s with status := "Exported " ++ toString s.drawFeatures.length ++ " features" },
      some ("tenom-plan-" ++ s.currentScenario ++ ".geojson", s.drawFeatures))

/-- Embeds `analyzeNow` of `src/src/App.jsx` lines 230-252. The returned
Bool records whether the two-second mock delay (the only "work" and only
request-like effect) was performed. With zero features the handler sets
the nothing-to-analyze status and returns at once. Otherwise it waits the
mock delay, stores `mockAnalysisData` and reports completion
(`isAnalyzing` is set and then cleared in `finally`, so it ends false and
is not modelled as state). -/
def analyzeNow (s : AppState) : AppState × Bool :=
  if s.drawFeatures.length = 0 then
    ({ s with status := "Draw some features first to analyze" }, false)
  else
    ({ s with analysisData := some mockAnalysisData
              status := "Analysis complete!" }, true)

/-- Embeds `createNewScenario` of `src/src/App.jsx` lines 254-265, given
the `prompt` result (`none` = cancelled). The guard
`if (scenarioName && !scenarios.includes(scenarioName))` requires a truthy
(non-empty) name not already present; only then is the scenario appended
and selected, the drawing widget cleared via `deleteAll`, and the held
analysis result dropped. Otherwise nothing changes. -/
def createNewScenario (input : Option String) (s : AppState) : AppState :=
  match input with
  | none => s
  | some name =>
    if name ≠ "" && !(s.scenarios.contains name) then
      { s with scenarios := s.scenarios ++ [name]
               currentScenario := name
               drawFeatures := []
               analysisData := none
               status := "New scenario: " ++ name }
    else s

/-- Embeds `switchScenario` of `src/src/App.jsx` lines 267-274: select the
scenario, drop the analysis result, clear the drawing widget, report. -/
def switchScenario (scenario : String) (s : AppState) : AppState :=
  { s with currentScenario := scenario
           analysisData := none
           drawFeatures := []
           status := "Switched to " ++ scenario }

/-- Relation between a response feature and the corresponding editable
feature after reconciliation: same payload, the id is kept when the
response already carried one, and the result always carries an id. -/
def UpToIdAssignment (f g : Feature) : Prop :=
  g.payload = f.payload ∧ (∀ a, f.id = some a → g.id = some a) ∧ g.id.isSome = true

theorem assignIds_cond (gen : Nat → Nat × Nat) (fs : List Feature) :
    (if fs.length ≠ 0 then assignIds gen fs 0 else []) = assignIds gen fs 0 := by
  cases fs with
  | nil => simp [assignIds]
  | cons f fs => simp

theorem assignIds_forall₂ (gen : Nat → Nat × Nat) :
    ∀ (fs : List Feature) (k : Nat), List.Forall₂ UpToIdAssignment fs (assignIds gen fs k) := by
  intro fs
  induction fs with
  | nil => intro k; exact List.Forall₂.nil
  | cons f fs ih =>
    intro k
    cases hid : f.id with
    | some a =>
      simp only [assignIds, hid]
      refine List.Forall₂.cons ⟨rfl, ?_, ?_⟩ (ih k)
      · intro b hb; exact hb
      · simp [hid]
    | none =>
      simp only [assignIds, hid]
      refine List.Forall₂.cons ⟨rfl, ?_, ?_⟩ (ih (k + 1))
      · intro b hb; rw [hid] at hb; simp at hb
      · simp

theorem assignIds_isSome (gen : Nat → Nat × Nat) :
    ∀ (fs : List Feature) (k : Nat),
      (assignIds gen fs k).all (fun f => f.id.isSome) = true := by
  intro fs
  induction fs with
  | nil => intro k; rfl
  | cons f fs ih =>
    intro k
    cases hid : f.id with
    | some a => simp only [assignIds, hid, List.all_cons]; simp [hid, ih k]
    | none => simp only [assignIds, hid, List.all_cons]; simp [ih (k + 1)]

theorem synthesizedIds_mem (gen : Nat → Nat × Nat) :
    ∀ (fs : List Feature) (k : Nat) (x : String), x ∈ synthesizedIds gen fs k →
      ∃ j, k ≤ j ∧ j < k + fs.length ∧ x = synthId (gen j).1 (gen j).2 := by
  intro fs
  induction fs with
  | nil => intro k x hx; simp [synthesizedIds] at hx
  | cons f fs ih =>
    intro k x hx
    cases hid : f.id with
    | some a =>
      simp only [synthesizedIds, hid] at hx
      obtain ⟨j, h1, h2, h3⟩ := ih k x hx
      exact ⟨j, h1, by simp only [List.length_cons]; omega, h3⟩
    | none =>
      simp only [synthesizedIds, hid, List.mem_cons] at hx
      rcases hx with hx | hx
      · exact ⟨k, le_refl k, by simp only [List.length_cons]; omega, hx⟩
      · obtain ⟨j, h1, h2, h3⟩ := ih (k + 1) x hx
        exact ⟨j, by omega, by simp only [List.length_cons] at h2 ⊢; omega, h3⟩

theorem synthesizedIds_pairwise (gen : Nat → Nat × Nat) :
    ∀ (fs : List Feature) (k : Nat),
      (∀ i j, k ≤ i → i < k + fs.length → k ≤ j → j < k + fs.length → i ≠ j →
        synthId (gen i).1 (gen i).2 ≠ synthId (gen j).1 (gen j).2) →
      List.Pairwise (fun a b => a ≠ b) (synthesizedIds gen fs k) := by
  intro fs
  induction fs with
  | nil => intro k _; simp [synthesizedIds]
  | cons f fs ih =>
    intro k h
    simp only [List.length_cons] at h
    cases hid : f.id with
    | some a =>
      simp only [synthesizedIds, hid]
      exact ih k (fun i j hi hii hj hjj hne => h i j hi (by omega) hj (by omega) hne)
    | none =>
      simp only [synthesizedIds, hid]
      refine List.Pairwise.cons ?_ (ih (k + 1)
        (fun i j hi hii hj hjj hne => h i j (by omega) (by omega) (by omega) (by omega) hne))
      intro b hb
      obtain ⟨j, hj1, hj2, hj3⟩ := synthesizedIds_mem gen fs (k + 1) b hb
      rw [hj3]
      exact h k j (le_refl k) (by omega) (by omega) (by omega) (by omega)

theorem fetchFeaturesForView_http200 (gen : Nat → Nat × Nat) (fs : List Feature)
    (s : ViewState) :
    fetchFeaturesForView gen (.http 200 ⟨some fs⟩) s =
      { rendered := ⟨some fs⟩, drawFeatures := assignIds gen fs 0,
        status := "Loaded " ++ toString fs.length ++ " features" } := by
  cases fs with
  | nil => rfl
  | cons f fs => rfl

/-- C1: after a successful viewport sync (HTTP 200 with a feature-collection
body), the rendered "features" source's data equals the backend's response
collection, and the editable drawing layer's feature set is exactly the
response collection with ids assigned (`assignIds`), independent of the
previously present editable features (all deleted); each response feature
maps to an editable feature with the same payload, a kept id when it had
one, and always some id (a synthesized one when it had none). -/
theorem fetch_success_sync (gen : Nat → Nat × Nat) (fs : List Feature) (s : ViewState) :
    fetchFeaturesForView gen (.http 200 ⟨some fs⟩) s =
      { rendered := ⟨some fs⟩, drawFeatures := assignIds gen fs 0,
        status := "Loaded " ++ toString fs.length ++ " features" } ∧
    List.Forall₂ UpToIdAssignment fs
      (fetchFeaturesForView gen (.http 200 ⟨some fs⟩) s).drawFeatures := by
  refine ⟨fetchFeaturesForView_http200 gen fs s, ?_⟩
  rw [fetchFeaturesForView_http200]
  exact assignIds_forall₂ gen fs 0

/-- C2 counterexample: when the timestamp/random oracle returns the same
pair for both draws of a batch (one millisecond, one repeated random
value), two features lacking ids receive the same synthesized identifier,
so the identifiers assigned in a single batch are not always distinct. -/
theorem assignIds_collision_counterexample :
    (assignIds (fun _ => (100, 7)) [⟨none, "a"⟩, ⟨none, "b"⟩] 0).map Feature.id
      = [some "f_100_7", some "f_100_7"] ∧
    ¬ List.Pairwise (fun a b => a ≠ b)
      (synthesizedIds (fun _ => (100, 7)) [⟨none, "a"⟩, ⟨none, "b"⟩] 0) := by
  constructor
  · rfl
  · decide

/-- C2 (amended): every feature lacking an identifier is assigned a
synthesized identifier of the form timestamp plus random suffix, and the
identifiers assigned in one batch are pairwise distinct provided the
strings produced from the oracle's draws for that batch are pairwise
distinct; the code itself does not enforce that proviso. -/
theorem assignIds_unique (gen : Nat → Nat × Nat) (fs : List Feature)
    (h : ∀ i, i < fs.length → ∀ j, j < fs.length → i ≠ j →
      synthId (gen i).1 (gen i).2 ≠ synthId (gen j).1 (gen j).2) :
    (assignIds gen fs 0).all (fun f => f.id.isSome) = true ∧
    List.Pairwise (fun a b => a ≠ b) (synthesizedIds gen fs 0) := by
  refine ⟨assignIds_isSome gen fs 0, synthesizedIds_pairwise gen fs 0 ?_⟩
  intro i j hi hii hj hjj hne
  exact h i (by omega) j (by omega) hne

/-- Witness for the amended C2 at a concrete batch and oracle. -/
theorem assignIds_unique_witness :
    (assignIds (fun k => (k, 0)) [⟨none, "a"⟩, ⟨none, "b"⟩] 0).all
        (fun f => f.id.isSome) = true ∧
    List.Pairwise (fun a b => a ≠ b)
      (synthesizedIds (fun k => (k, 0)) [⟨none, "a"⟩, ⟨none, "b"⟩] 0) :=
  assignIds_unique (fun k => (k, 0)) [⟨none, "a"⟩, ⟨none, "b"⟩] (by decide)

/-- C3: a fetch that fails with a transport error or a non-success HTTP
status throws before any mutation, so the rendered data and the editable
feature set are exactly as before and only the status is set to the
failure message. -/
theorem fetch_failure_preserves_state (gen : Nat → Nat × Nat) (st : Nat)
    (body : Body) (s : ViewState) (h : isOk st = false) :
    fetchFeaturesForView gen .transportError s = { s with status := fetchFailMsg } ∧
    fetchFeaturesForView gen (.http st body) s = { s with status := fetchFailMsg } := by
  constructor
  · rfl
  · simp [fetchFeaturesForView, h]

/-- Witness for C3 at HTTP 500 on a state holding one feature. -/
theorem fetch_failure_preserves_state_witness :
    fetchFeaturesForView (fun _ => (0, 0)) .transportError
        ⟨⟨some [⟨some "x", "p"⟩]⟩, [⟨some "x", "p"⟩], "Ready"⟩ =
      ⟨⟨some [⟨some "x", "p"⟩]⟩, [⟨some "x", "p"⟩], fetchFailMsg⟩ ∧
    fetchFeaturesForView (fun _ => (0, 0)) (.http 500 ⟨some []⟩)
        ⟨⟨some [⟨some "x", "p"⟩]⟩, [⟨some "x", "p"⟩], "Ready"⟩ =
      ⟨⟨some [⟨some "x", "p"⟩]⟩, [⟨some "x", "p"⟩], fetchFailMsg⟩ :=
  fetch_failure_preserves_state (fun _ => (0, 0)) 500 ⟨some []⟩
    ⟨⟨some [⟨some "x", "p"⟩]⟩, [⟨some "x", "p"⟩], "Ready"⟩ rfl

/-- C9: an HTTP 200 response whose JSON body lacks a `features` array first
replaces the rendered source's data with that body and deletes every
editable feature, and only then throws on reading `fc.features.length`, so
the handler ends with the failure status while the rendered layer has
already been mutated — the untouched-on-failure guarantee fails here. -/
theorem fetch_missing_features_mutates (gen : Nat → Nat × Nat) (s : ViewState)
    (h : s.rendered ≠ ⟨none⟩) :
    fetchFeaturesForView gen (.http 200 ⟨none⟩) s =
      { rendered := ⟨none⟩, drawFeatures := [], status := fetchFailMsg } ∧
    (fetchFeaturesForView gen (.http 200 ⟨none⟩) s).rendered ≠ s.rendered := by
  refine ⟨rfl, ?_⟩
  intro hc
  exact h hc.symm

/-- Witness for C9: a state rendering one feature is mutated even though
the fetch ends in the failure status. -/
theorem fetch_missing_features_mutates_witness :
    fetchFeaturesForView (fun _ => (0, 0)) (.http 200 ⟨none⟩)
        ⟨⟨some [⟨some "x", "p"⟩]⟩, [⟨some "x", "p"⟩], "Ready"⟩ =
      ⟨⟨none⟩, [], fetchFailMsg⟩ ∧
    (fetchFeaturesForView (fun _ => (0, 0)) (.http 200 ⟨none⟩)
        ⟨⟨some [⟨some "x", "p"⟩]⟩, [⟨some "x", "p"⟩], "Ready"⟩).rendered ≠
      (⟨⟨some [⟨some "x", "p"⟩]⟩, [⟨some "x", "p"⟩], "Ready"⟩ : ViewState).rendered :=
  fetch_missing_features_mutates (fun _ => (0, 0))
    ⟨⟨some [⟨some "x", "p"⟩]⟩, [⟨some "x", "p"⟩], "Ready"⟩ (by decide)

/-- C4 counterexample: in the scenario planner (`src/src/App.jsx`) the
`draw.create` handler only updates the status message; there is no
rendered "features" source to copy into, so after the event the rendered
source's data (none) does not equal the drawing widget's feature set. -/
theorem draw_event_mirror_counterexample :
    (drawCreateHandler
        ⟨[⟨some "a", "poly"⟩], none, "Ready", ["Master Plan"], "Master Plan", none⟩).featuresSourceData
      ≠ some ⟨some (drawCreateHandler
        ⟨[⟨some "a", "poly"⟩], none, "Ready", ["Master Plan"], "Master Plan", none⟩).drawFeatures⟩ := by
  decide

/-- C4 (amended): in the viewport-sync component (part_000), `syncPreview`
runs on every draw create/update/delete event and makes the rendered
"features" source's data exactly the drawing widget's current feature set,
synchronously and with no network effect; in the scenario planner
(`src/src/App.jsx`) the draw event handlers only set the status message to
a feature count and copy nothing (that component has no rendered
"features" source). -/
theorem draw_event_mirror (s : ViewState) (a : AppState) :
    syncPreview s = { s with rendered := ⟨some s.drawFeatures⟩ } ∧
    drawCreateHandler a =
      { a with status := "Drawn " ++ toString a.drawFeatures.length ++ " objects" } ∧
    drawUpdateHandler a =
      { a with status := "Updated " ++ toString a.drawFeatures.length ++ " objects" } ∧
    drawDeleteHandler a =
      { a with status := toString a.drawFeatures.length ++ " objects remaining" } :=
  ⟨rfl, rfl, rfl, rfl⟩

/-- C5 counterexample: a file whose content is valid JSON but has no
`features` array (for example "\x7b\x7d") fails to parse as a feature
collection, yet `handleImport` changes nothing at all: no invalid-format
message is shown (the status stays "Ready") and the widget's prior
contents are not cleared either. -/
theorem import_missing_features_counterexample :
    handleImport (.parsed none)
        ⟨[⟨some "a", "poly"⟩], none, "Ready", ["Master Plan"], "Master Plan", none⟩ =
      ⟨[⟨some "a", "poly"⟩], none, "Ready", ["Master Plan"], "Master Plan", none⟩ ∧
    "Ready" ≠ "Error: Invalid GeoJSON file" ∧
    [Feature.mk (some "a") "poly"] ≠ ([] : List Feature) :=
  ⟨rfl, by decide, by decide⟩

/-- C5 (amended): if `JSON.parse` throws, the invalid-format message is
reported and the widget's feature set is unchanged; if it succeeds and the
value has a `features` array, the widget is cleared and every feature of
the array inserted; if it succeeds but the value lacks a `features` array,
the handler makes no state change and reports no message. -/
theorem handleImport_spec (s : AppState) (fs : List Feature) :
    handleImport .parseError s = { s with status := "Error: Invalid GeoJSON file" } ∧
    handleImport (.parsed none) s = s ∧
    handleImport (.parsed (some fs)) s =
      { s with drawFeatures := fs,
               status := "Imported " ++ toString fs.length ++ " features" } :=
  ⟨rfl, rfl, rfl⟩

/-- C6: `saveToBackend` always sends the drawing widget's entire current
feature set as the POST payload — for a transport error, for any HTTP
status, and in particular the empty collection when nothing is drawn — and
on a successful response re-runs the viewport sync for the current
viewport state. -/
theorem save_sends_full_set (gen : Nat → Nat × Nat) (st okSt : Nat)
    (fetchResp : FetchResult) (s : ViewState) (h : isOk okSt = true) :
    (saveToBackend gen .transportError fetchResp s).1 = s.drawFeatures ∧
    (saveToBackend gen (.http st) fetchResp s).1 = s.drawFeatures ∧
    (saveToBackend gen (.http okSt) fetchResp s).2.1 = true ∧
    (saveToBackend gen (.http okSt) fetchResp s).2.2 =
      fetchFeaturesForView gen fetchResp { s with status := "Saved to backend" } := by
  refine ⟨rfl, ?_, ?_, ?_⟩
  · by_cases hc : isOk st = true <;> simp [saveToBackend, hc]
  · simp [saveToBackend, h]
  · simp [saveToBackend, h]

/-- Witness for C6: zero drawn features still yield an empty-collection
payload, and a 200 response triggers the viewport refetch. -/
theorem save_sends_full_set_witness :
    (saveToBackend (fun _ => (0, 0)) .transportError (.http 200 ⟨some []⟩)
        ⟨⟨some []⟩, [], "Ready"⟩).1 = [] ∧
    (saveToBackend (fun _ => (0, 0)) (.http 500) (.http 200 ⟨some []⟩)
        ⟨⟨some []⟩, [], "Ready"⟩).1 = [] ∧
    (saveToBackend (fun _ => (0, 0)) (.http 200) (.http 200 ⟨some []⟩)
        ⟨⟨some []⟩, [], "Ready"⟩).2.1 = true ∧
    (saveToBackend (fun _ => (0, 0)) (.http 200) (.http 200 ⟨some []⟩)
        ⟨⟨some []⟩, [], "Ready"⟩).2.2 =
      fetchFeaturesForView (fun _ => (0, 0)) (.http 200 ⟨some []⟩)
        ⟨⟨some []⟩, [], "Saved to backend"⟩ :=
  save_sends_full_set (fun _ => (0, 0)) 500 200 (.http 200 ⟨some []⟩)
    ⟨⟨some []⟩, [], "Ready"⟩ rfl

/-- C7: `analyzeNow` with zero drawn features performs no request and no
delay and only sets the nothing-to-analyze status (the code's wording is
"Draw some features first to analyze"); with at least one feature it
performs the simulated delay and stores the fixed mock payload with its
four category scores (72, 68, 61, 25) and three recommendations. -/
theorem analyzeNow_spec (s : AppState) (h0 : s.drawFeatures = [])
    (s1 : AppState) (h1 : s1.drawFeatures ≠ []) :
    analyzeNow s = ({ s with status := "Draw some features first to analyze" }, false) ∧
    analyzeNow s1 = ({ s1 with analysisData := some mockAnalysisData,
                               status := "Analysis complete!" }, true) ∧
    mockAnalysisData.environmental = 72 ∧ mockAnalysisData.wellbeing = 68 ∧
    mockAnalysisData.economic = 61 ∧ mockAnalysisData.hazard = 25 ∧
    mockAnalysisData.recommendations.length = 3 := by
  refine ⟨?_, ?_, rfl, rfl, rfl, rfl, rfl⟩
  · simp [analyzeNow, h0]
  · simp [analyzeNow, List.length_eq_zero, h1]

/-- Witness for C7 at an empty and a one-feature state. -/
theorem analyzeNow_spec_witness :
    analyzeNow ⟨[], none, "Ready", ["Master Plan"], "Master Plan", none⟩ =
      (⟨[], none, "Draw some features first to analyze",
          ["Master Plan"], "Master Plan", none⟩, false) ∧
    analyzeNow ⟨[⟨some "a", "poly"⟩], none, "Ready", ["Master Plan"], "Master Plan", none⟩ =
      (⟨[⟨some "a", "poly"⟩], none, "Analysis complete!",
          ["Master Plan"], "Master Plan", some mockAnalysisData⟩, true) ∧
    mockAnalysisData.environmental = 72 ∧ mockAnalysisData.wellbeing = 68 ∧
    mockAnalysisData.economic = 61 ∧ mockAnalysisData.hazard = 25 ∧
    mockAnalysisData.recommendations.length = 3 :=
  analyzeNow_spec ⟨[], none, "Ready", ["Master Plan"], "Master Plan", none⟩ rfl
    ⟨[⟨some "a", "poly"⟩], none, "Ready", ["Master Plan"], "Master Plan", none⟩ (by decide)

/-- C8: exporting with an empty drawing-widget feature set only sets the
nothing-to-export status (the code's wording is "No features to export")
and produces no downloadable artifact, leaving every other piece of state
unchanged; with a non-empty set the full set is serialized into the
download artifact named after the current scenario. -/
theorem handleExport_spec (s : AppState) (h0 : s.drawFeatures = [])
    (s1 : AppState) (h1 : s1.drawFeatures ≠ []) :
    handleExport s = ({ s with status := "No features to export" }, none) ∧
    handleExport s1 =
      ({ s1 with status := "Exported " ++ toString s1.drawFeatures.length ++ " features" },
        some ("tenom-plan-" ++ s1.currentScenario ++ ".geojson", s1.drawFeatures)) := by
  constructor
  · simp [handleExport, h0]
  · simp [handleExport, List.length_eq_zero, h1]

/-- Witness for C8 at an empty and a one-feature state. -/
theorem handleExport_spec_witness :
    handleExport ⟨[], none, "Ready", ["Master Plan"], "Master Plan", none⟩ =
      (⟨[], none, "No features to export", ["Master Plan"], "Master Plan", none⟩, none) ∧
    handleExport ⟨[⟨some "a", "poly"⟩], none, "Ready", ["Master Plan"], "Master Plan", none⟩ =
      (⟨[⟨some "a", "poly"⟩], none, "Exported 1 features",
          ["Master Plan"], "Master Plan", none⟩,
        some ("tenom-plan-Master Plan.geojson", [⟨some "a", "poly"⟩])) :=
  handleExport_spec ⟨[], none, "Ready", ["Master Plan"], "Master Plan", none⟩ rfl
    ⟨[⟨some "a", "poly"⟩], none, "Ready", ["Master Plan"], "Master Plan", none⟩ (by decide)

/-- C10: cancelling the scenario prompt or naming an existing scenario
changes nothing; creating a scenario with a fresh non-empty name appends
and selects it, deletes every drawn feature and drops any held analysis
result; switching scenarios unconditionally does the same discarding. No
save or export is produced by either path. -/
theorem scenario_change_discards (s : AppState) (name scenario nm : String)
    (hmem : name ∈ s.scenarios) (hne : nm ≠ "") (hnm : nm ∉ s.scenarios) :
    createNewScenario none s = s ∧
    createNewScenario (some name) s = s ∧
    createNewScenario (some nm) s =
      { s with scenarios := s.scenarios ++ [nm], currentScenario := nm,
               drawFeatures := [], analysisData := none,
               status := "New scenario: " ++ nm } ∧
    switchScenario scenario s =
      { s with currentScenario := scenario, analysisData := none,
               drawFeatures := [], status := "Switched to " ++ scenario } := by
  refine ⟨rfl, ?_, ?_, rfl⟩
  · simp [createNewScenario, hmem]
  · simp [createNewScenario, hne, hnm]

/-- Witness for C10 on the initial scenario list with a held analysis
result and one drawn feature. -/
theorem scenario_change_discards_witness :
    createNewScenario none
        ⟨[⟨some "a", "poly"⟩], none, "Ready", ["Master Plan", "Sustainable Vision"],
          "Master Plan", some mockAnalysisData⟩ =
      ⟨[⟨some "a", "poly"⟩], none, "Ready", ["Master Plan", "Sustainable Vision"],
        "Master Plan", some mockAnalysisData⟩ ∧
    createNewScenario (some "Master Plan")
        ⟨[⟨some "a", "poly"⟩], none, "Ready", ["Master Plan", "Sustainable Vision"],
          "Master Plan", some mockAnalysisData⟩ =
      ⟨[⟨some "a", "poly"⟩], none, "Ready", ["Master Plan", "Sustainable Vision"],
        "Master Plan", some mockAnalysisData⟩ ∧
    createNewScenario (some "Green")
        ⟨[⟨some "a", "poly"⟩], none, "Ready", ["Master Plan", "Sustainable Vision"],
          "Master Plan", some mockAnalysisData⟩ =
      ⟨[], none, "New scenario: Green", ["Master Plan", "Sustainable Vision", "Green"],
        "Green", none⟩ ∧
    switchScenario "Sustainable Vision"
        ⟨[⟨some "a", "poly"⟩], none, "Ready", ["Master Plan", "Sustainable Vision"],
          "Master Plan", some mockAnalysisData⟩ =
      ⟨[], none, "Switched to Sustainable Vision", ["Master Plan", "Sustainable Vision"],
        "Sustainable Vision", none⟩ :=
  scenario_change_discards
    ⟨[⟨some "a", "poly"⟩], none, "Ready", ["Master Plan", "Sustainable Vision"],
      "Master Plan", some mockAnalysisData⟩
    "Master Plan" "Sustainable Vision" "Green" (by decide) (by decide) (by decide)
